import Mathlib

/-!
Verification of the lulu-monitor repository.

This file gives a shallow embedding, in Lean 4, of the pure logic of the
lulu-monitor sources: the field extractor (`src/extractor.js`,
`parseAlertTexts`), the alert formatter, gateway delivery, poll loop,
action player and HTTP command handler of the main entry
(`src/unnamed/part_001`), and the two-action `executeAction` variant of
`src/index.js`.  I/O boundaries (AppleScript output, HTTP responses,
filesystem writes) are modelled as explicit inputs and outputs of pure
step functions.  Theorems about this embedding settle the specification
claims.
-/

/-- Substring test, mirroring JavaScript `String.prototype.includes`. -/
def jsIncludes (s pat : String) : Bool :=
  s.data.tails.any (fun t => pat.data.isPrefixOf t)

/-- Prefix test, mirroring JavaScript `String.prototype.startsWith`. -/
def jsStartsWith (s pre : String) : Bool :=
  pre.data.isPrefixOf s.data

/-- Suffix test, mirroring JavaScript `String.prototype.endsWith`. -/
def jsEndsWith (s suf : String) : Bool :=
  suf.data.isSuffixOf s.data

/-- Whitespace trim, mirroring JavaScript `String.prototype.trim`. -/
def jsTrim (s : String) : String :=
  String.mk (((s.data.dropWhile Char.isWhitespace).reverse.dropWhile
    Char.isWhitespace).reverse)

/-- Split of a character sequence on a single separator character. -/
def splitCharAux (sep : Char) : List Char → List (List Char)
  | [] => [[]]
  | c :: cs =>
    let r := splitCharAux sep cs
    if c = sep then [] :: r
    else
      match r with
      | [] => [[c]]
      | h :: t => (c :: h) :: t

/-- Split on a one-character separator, mirroring JavaScript
`String.prototype.split` with a single-character argument. -/
def jsSplitChar (s : String) (sep : Char) : List String :=
  (splitCharAux sep s.data).map String.mk

/-- Removal of the last `n` characters, mirroring the effect of the
source's fixed-width suffix drops. -/
def jsDropRight (s : String) (n : Nat) : String :=
  String.mk (s.data.take (s.data.length - n))

/-- Truncation to the first `n` characters, mirroring
`String.prototype.substring(0, n)`. -/
def jsTake (s : String) (n : Nat) : String :=
  String.mk (s.data.take n)

/-- Lower-casing, mirroring `String.prototype.toLowerCase` on the ASCII
range the source compares. -/
def jsToLower (s : String) : String :=
  String.mk (s.data.map Char.toLower)

/-- Separator join, mirroring JavaScript `Array.prototype.join`. -/
def jsJoin (sep : String) (xs : List String) : String :=
  String.mk (List.intercalate sep.data (xs.map String.data))

namespace Extractor

/-- The structured record built by `parseAlertTexts` in `src/extractor.js`
(field names as in the source's `data` object literal). -/
structure AlertData where
  processName : String
  pid : String
  path : String
  args : String
  ipAddress : String
  port : String
  protocol : String
  reverseDNS : String
  rawTexts : List String
deriving DecidableEq, Repr

/-- Test of the IPv4 regex of the source,
`/^\d\x7b1,3\x7d\.\d\x7b1,3\x7d\.\d\x7b1,3\x7d\.\d\x7b1,3\x7d$/`:
exactly four dot-separated groups of one to three digits. -/
def isIPv4 (s : String) : Bool :=
  let parts := jsSplitChar s '.'
  parts.length == 4 &&
    parts.all (fun p => 1 ≤ p.length && p.length ≤ 3 && p.data.all Char.isDigit)

/-- Combined test and capture of the port/protocol regexes of the source,
`/^\d\x7b1,5\x7d \((TCP|UDP)\)$/` for the test and
`/^(\d+) \((TCP|UDP)\)$/` for the capture: when the string is one to five
digits followed by a space and a parenthesised protocol, return the digit
group and the protocol, otherwise `none`. -/
def portProtoSplit (s : String) : Option (String × String) :=
  if jsEndsWith s " (TCP)" then
    let d := jsDropRight s 6
    if 1 ≤ d.length && d.length ≤ 5 && d.data.all Char.isDigit then
      some (d, "TCP") else none
  else if jsEndsWith s " (UDP)" then
    let d := jsDropRight s 6
    if 1 ≤ d.length && d.length ≤ 5 && d.data.all Char.isDigit then
      some (d, "UDP") else none
  else none

/-- Test of the pid regex `/^\d\x7b4,6\x7d$/`: four to six digits. -/
def isPid (s : String) : Bool :=
  4 ≤ s.length && s.length ≤ 6 && s.data.all Char.isDigit

/-- Character class `[a-zA-Z0-9.-]` of the hostname regex. -/
def isHostChar (c : Char) : Bool :=
  c.isAlphanum || c == '.' || c == '-'

/-- Match of the tail `[a-zA-Z]\x7b2,\x7d\.?` of the hostname regex:
two or more letters followed by an optional single trailing dot. -/
def hostTail (ds : List Char) : Bool :=
  (2 ≤ ds.length && ds.all Char.isAlpha) ||
  (ds.getLast? == some '.' && 2 ≤ ds.dropLast.length &&
    ds.dropLast.all Char.isAlpha)

/-- Test of the hostname regex of the source,
`/^[a-zA-Z0-9.-]+\.[a-zA-Z]\x7b2,\x7d\.?$/`: some position `i ≥ 1` splits
the string into a nonempty prefix of host characters, a dot, and a tail of
two or more letters with an optional trailing dot. -/
def isHostname (s : String) : Bool :=
  let cs := s.data
  (List.range cs.length).any (fun i =>
    decide (1 ≤ i) && (cs.take i).all isHostChar &&
      cs.get? i == some '.' && hostTail (cs.drop (i + 1)))

/-- Removal of a single trailing dot, mirroring `replace(/\.$/, '')`. -/
def stripTrailingDot (s : String) : String :=
  if jsEndsWith s "." then jsDropRight s 1 else s

/-- The `skipWords` list of the bare-name branch of `parseAlertTexts`. -/
def skipWords : List String :=
  ["Details", "Options", "Process", "Connection", "LuLu", "Alert", "Block", "Allow"]

/-- One iteration of the `for (const text of texts)` loop body of
`parseAlertTexts` in `src/extractor.js`: trim the fragment, skip labels,
then try the pattern branches in source order, updating the record as the
source does.  Note that the branches for `ipAddress`, `pid`, `reverseDNS`
and the bare process name carry an emptiness guard in the source, while
the branches for `port`/`protocol`, `path` and `args` do not. -/
def parseStep (d : AlertData) (text : String) : AlertData :=
  let trimmed := jsTrim text
  if jsEndsWith trimmed ":" then d
  else if isIPv4 trimmed ∧ d.ipAddress = "" then { d with ipAddress := trimmed }
  else
    match portProtoSplit trimmed with
    | some pp => { d with port := pp.1, protocol := pp.2 }
    | none =>
      if isPid trimmed ∧ d.pid = "" then { d with pid := trimmed }
      else if jsStartsWith trimmed "/" ∧ jsIncludes trimmed "/" then
        let parts := jsSplitChar trimmed '/'
        let name := parts.getLastD ""
        let d1 := { d with path := trimmed }
        if name ≠ "" ∧ d1.processName = "" then { d1 with processName := name }
        else d1
      else if jsStartsWith trimmed "http://" ∨ jsStartsWith trimmed "https://" then
        { d with args := trimmed }
      else if isHostname trimmed ∧ d.reverseDNS = "" ∧ ¬ jsStartsWith trimmed "/" then
        { d with reverseDNS := stripTrailingDot trimmed }
      else if ¬ jsIncludes trimmed " " ∧ ¬ jsIncludes trimmed "/" ∧
          ¬ jsIncludes trimmed ":" ∧ trimmed.length < 50 then
        if ¬ (skipWords.any (fun w => jsIncludes trimmed w)) ∧ d.processName = "" then
          { d with processName := trimmed }
        else d
      else d

/-- The initial `data` object literal of `parseAlertTexts`: all fields
empty except `protocol`, which the source initialises to `"TCP"`, and
`rawTexts`, which holds the input fragments. -/
def initData (texts : List String) : AlertData :=
  { processName := "", pid := "", path := "", args := "", ipAddress := "",
    port := "", protocol := "TCP", reverseDNS := "", rawTexts := texts }

/-- The field extractor `parseAlertTexts` of `src/extractor.js`: fold the
loop body over the fragments in scrape order. -/
def parseAlertTexts (texts : List String) : AlertData :=
  texts.foldl parseStep (initData texts)

end Extractor

/-- The mutable module state of the main entry (`src/unnamed/part_001`):
`lastAlertHash`, `lastMessageId` and `lastMessageContent`, each a string
or JavaScript `null` (`none`). -/
structure MonitorState where
  lastAlertHash : Option String
  lastMessageId : Option String
  lastMessageContent : Option String
deriving DecidableEq, Repr

/-- The startup value of the module state: all three variables `null`. -/
def initialState : MonitorState := ⟨none, none, none⟩

namespace Main

/-- The configurable parts of `CONFIG` that the formatter reads:
`autoExecute` and `telegramId` (`src/unnamed/part_001`). -/
structure Config where
  autoExecute : Bool
  telegramId : String
deriving DecidableEq, Repr

/-- The `CONFIG` defaults of `src/unnamed/part_001`. -/
def defaultConfig : Config := { autoExecute := false, telegramId := "555773901" }

/-- The alert fingerprint computed by `extractAlertData`:
`texts.join('|').substring(0, 200)` — the `'|'`-join of the scraped
fragments truncated to its first 200 characters. -/
def alertHash (texts : List String) : String :=
  jsTake (jsJoin "|" texts) 200

/-- JavaScript truthiness of the `lastAlertHash` variable: `null` and the
empty string are falsy. -/
def jsTruthyHash : Option String → Bool
  | none => false
  | some s => s ≠ ""

/-- The `skipPatterns` list of `formatAlertMessage` in
`src/unnamed/part_001`. -/
def skipPatterns : List String :=
  ["Details & Options", "LuLu Alert", "Process:", "Connection:",
   "pid:", "args:", "path:", "port/protocol:", "ip address:",
   "(reverse) dns:", "Rule Scope:", "Rule Duration:", "Time stamp:",
   "none", "unknown"]

/-- Test of the case-insensitive port regex
`/^\d+\s*\((TCP|UDP)\)$/i` of `formatAlertMessage`: one or more digits,
optional whitespace, then a parenthesised protocol in either case. -/
def portPattern (s : String) : Bool :=
  let ds := s.data.takeWhile Char.isDigit
  let rest := (s.data.drop ds.length).dropWhile Char.isWhitespace
  ds ≠ [] && (jsToLower (String.mk rest) == "(tcp)" || jsToLower (String.mk rest) == "(udp)")

/-- Character class `[a-zA-Z0-9_-]` of the process-name regex of
`formatAlertMessage`. -/
def isNameChar (c : Char) : Bool :=
  c.isAlphanum || c == '_' || c == '-'

/-- The local variables of the `formatAlertMessage` pattern-matching loop
in `src/unnamed/part_001`. -/
structure Fields where
  processName : String
  pid : String
  args : String
  programPath : String
  ipAddress : String
  port : String
  dns : String
deriving DecidableEq, Repr

/-- One iteration of the `for (const t of texts)` loop of
`formatAlertMessage` in `src/unnamed/part_001`: skip empties, skip-list
entries (case-insensitively) and labels, then try the patterns in source
order; every branch here carries an emptiness guard (first match wins). -/
def formatStep (f : Fields) (t : String) : Fields :=
  let trimmed := jsTrim t
  if trimmed = "" then f
  else if skipPatterns.any (fun p => jsToLower trimmed == jsToLower p) then f
  else if jsEndsWith trimmed ":" then f
  else if f.ipAddress = "" ∧ Extractor.isIPv4 trimmed then { f with ipAddress := trimmed }
  else if f.port = "" ∧ portPattern trimmed then { f with port := trimmed }
  else if f.pid = "" ∧ Extractor.isPid trimmed then { f with pid := trimmed }
  else if f.programPath = "" ∧ jsStartsWith trimmed "/" then { f with programPath := trimmed }
  else if f.args = "" ∧ (jsStartsWith trimmed "-" ∨ jsIncludes trimmed "://") then
    { f with args := trimmed }
  else if f.dns = "" ∧ jsIncludes trimmed "." ∧ ¬ Extractor.isIPv4 trimmed then
    { f with dns := trimmed }
  else if f.processName = "" ∧ 0 < trimmed.length ∧ trimmed.length < 30 ∧
      trimmed.data.all isNameChar then
    { f with processName := trimmed }
  else f

/-- Render of a field with a default, mirroring `$\x7bfield || 'unknown'\x7d`. -/
def orElse (v dflt : String) : String := if v = "" then dflt else v

/-- The message built by `formatAlertMessage` of `src/unnamed/part_001`
from the extracted fields: the `[LULU_ALERT]` block, the analyzer
instructions, the optional auto-execute block, and the Telegram button
instructions, joined with newlines.  The non-ASCII template lines are
transcribed byte-for-byte from the source (which stores them
double-encoded). -/
def formatAlertMessage (cfg : Config) (texts : List String) : String :=
  let f := texts.foldl formatStep ⟨"", "", "", "", "", "", ""⟩
  let baseLines : List String := [
    "[LULU_ALERT]",
    "process: " ++ orElse f.processName "unknown",
    "pid: " ++ orElse f.pid "unknown",
    "path: " ++ orElse f.programPath "unknown",
    "args: " ++ orElse f.args "none",
    "ip: " ++ orElse f.ipAddress "unknown",
    "port: " ++ orElse f.port "unknown",
    "dns: " ++ orElse f.dns "unknown",
    "[/LULU_ALERT]",
    "",
    "Ë´ãÂàÜÊûêÈÄôÂÄã LuLu Èò≤ÁÅ´ÁâÜË≠¶Â†±Ôºö",
    "1. Ë≠òÂà•Á®ãÂºèÂíåÈÄ£Á∑öÁõÆÊ®ô",
    "2. Ë©ï‰º∞È¢®Èö™Á≠âÁ¥ö (üü¢‰Ωé/üü°‰∏≠/üî¥È´ò)",
    "3. Áµ¶Âá∫Âª∫Ë≠∞ (Allow/Block, Ê∞∏‰πÖÊàñÊú¨Ê¨°)"]
  let autoLines : List String := [
    "",
    "‚ö° Ëá™ÂãïÂü∑Ë°åÊ®°ÂºèÂ∑≤ÈñãÂïüÔºö",
    "Â¶ÇÊûú‰Ω†Â∞çÊ±∫Á≠ñÊúâÈ´òÂ∫¶‰ø°ÂøÉÔºàÂ∑≤Áü•ÂÆâÂÖ®Á®ãÂºèÂ¶Ç curl/brew/node/git/Á≥ªÁµ±ÊúçÂãôÈÄ£Âà∞Ê≠£Â∏∏ÁõÆÊ®ôÔºâÔºå",
    "ÂèØ‰ª•Áõ¥Êé•Âü∑Ë°åÂãï‰ΩúÔºö",
    "1. ÂÖàË™øÁî® exec: curl -X POST http://127.0.0.1:4441/callback -H \"Content-Type: application/json\" -d \"\x7b\\\"action\\\":\\\"allow\\\"\x7d\"",
    "2. ÁÑ∂ÂæåÁôºÈÄÅ Telegram ÈÄöÁü•ÔºàÁÑ°ÊåâÈàïÔºâÔºåË™™ÊòéÂ∑≤Ëá™ÂãïÂÖÅË®±ÂèäÂéüÂõ†",
    "",
    "Â¶ÇÊûú‰ø°ÂøÉ‰∏çË∂≥ÊàñÊúâ‰ªª‰ΩïÁñëÊÖÆÔºåÊîπÁÇ∫ÁôºÈÄÅÂ∏∂ÊåâÈàïÁöÑÈÄöÁü•ËÆìÁî®Êà∂Ê±∫ÂÆö„ÄÇ"]
  let tailLines : List String := [
    "",
    "ÁôºÈÄÅÊëòË¶ÅÂà∞ Telegram (ID: " ++ cfg.telegramId ++ ") ‰∏¶ÈôÑ‰∏ä 2x2 ÊåâÈàïÁü©Èô£„ÄÇ",
    "‰ΩøÁî® message tool: action=send, channel=telegram, target=" ++ cfg.telegramId,
    "buttons Ê†ºÂºè (2x2):",
    "[[\x7b\"text\":\"‚úÖ Always Allow\",\"callback_data\":\"lulu:allow\"\x7d,\x7b\"text\":\"‚úÖ Allow Once\",\"callback_data\":\"lulu:allow-once\"\x7d],",
    "[\x7b\"text\":\"‚ùå Always Block\",\"callback_data\":\"lulu:block\"\x7d,\x7b\"text\":\"‚ùå Block Once\",\"callback_data\":\"lulu:block-once\"\x7d]]"]
  jsJoin "\n"
    (baseLines ++ (if cfg.autoExecute then autoLines else []) ++ tailLines)

/-- View of the gateway's HTTP response body after the `JSON.parse`
attempt in `sendToGateway`: either it parsed, carrying the `result.ok`
flag and the optional `result.result.details.messageId`, or `JSON.parse`
threw. -/
inductive BodyView where
  | parsed (ok : Bool) (messageId : Option String)
  | malformed
deriving DecidableEq, Repr

/-- Outcome of the HTTP POST issued by `sendToGateway`: a response with a
status code and body, a transport error, or the request timeout. -/
inductive GatewayOutcome where
  | response (status : Nat) (body : BodyView)
  | transportError
  | timeout
deriving DecidableEq, Repr

/-- The `sendToGateway` promise of `src/unnamed/part_001`, as a function
of the HTTP outcome: on a 200 whose body parsed with `ok` set, persist
`messageId` (when present) and the message content into the module state
and resolve `true`; on a 200 whose body failed to parse, resolve `true`
("assume success"); on a 200 with `ok` unset, a non-200 status, a
transport error or a timeout, reject with an error. -/
def sendToGateway (s : MonitorState) (message : String) (out : GatewayOutcome) :
    MonitorState × Except String Bool :=
  match out with
  | .response st body =>
    if st = 200 then
      match body with
      | .parsed true (some id) =>
        ({ s with lastMessageId := some id, lastMessageContent := some message },
          Except.ok true)
      | .parsed true none => (s, Except.ok true)
      | .parsed false _ => (s, Except.error "Unknown error")
      | .malformed => (s, Except.ok true)
    else (s, Except.error ("Gateway returned " ++ toString st))
  | .transportError => (s, Except.error "Gateway request error")
  | .timeout => (s, Except.error "Request timeout")

/-- The external observations one `poll` tick makes: whether
`checkForAlert` saw the window, what `extractAlertData` returned (`none`
when the script failed), the gateway's HTTP outcome, and whether the
fallback-file write would succeed. -/
structure TickEnv where
  hasAlert : Bool
  scraped : Option (List String)
  gateway : GatewayOutcome
  fallbackWriteOk : Bool
deriving DecidableEq, Repr

/-- What one `poll` tick did: the new module state, whether
`sendToGateway` was invoked, whether it resolved, and the content written
to the fallback file (when it was written). -/
structure TickResult where
  state : MonitorState
  forwarded : Bool
  delivered : Bool
  fallbackContent : Option String
deriving DecidableEq, Repr

/-- One tick of the `poll` function of `src/unnamed/part_001`: when the
alert window is present and extraction yields a hash different from
`lastAlertHash`, record the hash, format the message and send it; on a
delivery error, write the message to the fallback file, swallowing a
failure of that write.  When the window is absent and `lastAlertHash` is
truthy, clear it.  The surrounding `try`/`catch` swallows every error, so
the tick is a total function. -/
def pollTick (cfg : Config) (s : MonitorState) (env : TickEnv) : TickResult :=
  if env.hasAlert then
    match env.scraped with
    | none => { state := s, forwarded := false, delivered := false, fallbackContent := none }
    | some texts =>
      if some (alertHash texts) ≠ s.lastAlertHash then
        let s1 := { s with lastAlertHash := some (alertHash texts) }
        let message := formatAlertMessage cfg texts
        match sendToGateway s1 message env.gateway with
        | (s2, Except.ok _) =>
          { state := s2, forwarded := true, delivered := true, fallbackContent := none }
        | (s2, Except.error _) =>
          { state := s2, forwarded := true, delivered := false,
            fallbackContent := if env.fallbackWriteOk then some message else none }
      else { state := s, forwarded := false, delivered := false, fallbackContent := none }
  else if jsTruthyHash s.lastAlertHash then
    { state := { s with lastAlertHash := none }, forwarded := false,
      delivered := false, fallbackContent := none }
  else { state := s, forwarded := false, delivered := false, fallbackContent := none }

/-- A run of consecutive `poll` ticks, returning the final module state
and the number of ticks on which `sendToGateway` was invoked. -/
def pollRun (cfg : Config) : MonitorState → List TickEnv → MonitorState × Nat
  | s, [] => (s, 0)
  | s, e :: es =>
    let r := pollTick cfg s e
    let rest := pollRun cfg r.state es
    (rest.1, (if r.forwarded then 1 else 0) + rest.2)

/-- The `scriptMap` object of `executeAction` in `src/unnamed/part_001`:
the click script for each supported action name. -/
def scriptMap (action : String) : Option String :=
  if action = "allow" then some "click-allow.scpt"
  else if action = "block" then some "click-block.scpt"
  else if action = "allow-once" then some "click-allow-once.scpt"
  else if action = "block-once" then some "click-block-once.scpt"
  else none

/-- Result of an `executeAction` call: the new module state, the returned
success flag, and the click script that was run (`none` when no UI
interaction was attempted). -/
structure ActionResult where
  state : MonitorState
  success : Bool
  scriptRun : Option String
deriving DecidableEq, Repr

/-- The `executeAction` function of `src/unnamed/part_001`: look the
action up in `scriptMap` (unknown names fail without UI interaction), run
the click script (`uiOk` models `runScript` returning non-null), and on
success clear `lastAlertHash` and return `true`; on failure leave the
state unchanged and return `false`. -/
def executeAction (s : MonitorState) (action : String) (uiOk : Bool) : ActionResult :=
  match scriptMap action with
  | none => { state := s, success := false, scriptRun := none }
  | some script =>
    if uiOk then
      { state := { s with lastAlertHash := none }, success := true, scriptRun := some script }
    else
      { state := s, success := false, scriptRun := some script }

/-- The `validActions` list of the `POST /action` handler in
`src/unnamed/part_001`. -/
def validActions : List String := ["allow", "block", "allow-once", "block-once"]

/-- Result of the `POST /action` handler: HTTP status, the `success`
field of the JSON reply (absent on the error reply), the click script
run, and the new module state. -/
structure ActionHttpResult where
  status : Nat
  success : Option Bool
  scriptRun : Option String
  state : MonitorState
deriving DecidableEq, Repr

/-- The `POST /action` branch of `startCommandServer` in
`src/unnamed/part_001`: a valid action is passed to `executeAction` and
answered with its success flag (status 200 on success, 500 on failure);
any other action string is answered with status 400 and no UI
interaction. -/
def handleActionPost (s : MonitorState) (action : String) (uiOk : Bool) :
    ActionHttpResult :=
  if validActions.contains action then
    let r := executeAction s action uiOk
    { status := if r.success then 200 else 500, success := some r.success,
      scriptRun := r.scriptRun, state := r.state }
  else
    { status := 400, success := none, scriptRun := none, state := s }

end Main

namespace IndexJs

/-- The `executeAction` function of the `src/index.js` variant: the
script is `click-allow.scpt` exactly when the action is `"allow"` and
`click-block.scpt` for every other action string; there is no
unsupported-action rejection, and success clears `lastAlertHash`. -/
def executeAction (s : MonitorState) (action : String) (uiOk : Bool) :
    Main.ActionResult :=
  let script := if action = "allow" then "click-allow.scpt" else "click-block.scpt"
  if uiOk then
    { state := { s with lastAlertHash := none }, success := true, scriptRun := some script }
  else
    { state := s, success := false, scriptRun := some script }

end IndexJs

set_option maxHeartbeats 1600000
set_option maxRecDepth 4000

namespace Extractor

lemma parseStep_ipAddress_fixed (d : AlertData) (t : String) (h : d.ipAddress ≠ "") :
    (parseStep d t).ipAddress = d.ipAddress := by
  simp only [parseStep]
  repeat' split
  all_goals simp_all

lemma parseStep_pid_fixed (d : AlertData) (t : String) (h : d.pid ≠ "") :
    (parseStep d t).pid = d.pid := by
  simp only [parseStep]
  repeat' split
  all_goals simp_all

lemma parseStep_reverseDNS_fixed (d : AlertData) (t : String) (h : d.reverseDNS ≠ "") :
    (parseStep d t).reverseDNS = d.reverseDNS := by
  simp only [parseStep]
  repeat' split
  all_goals simp_all

lemma parseStep_processName_fixed (d : AlertData) (t : String) (h : d.processName ≠ "") :
    (parseStep d t).processName = d.processName := by
  simp only [parseStep]
  repeat' split
  all_goals simp_all

lemma foldl_parseStep_ipAddress_fixed :
    ∀ (ts : List String) (d : AlertData), d.ipAddress ≠ "" →
      (ts.foldl parseStep d).ipAddress = d.ipAddress
  | [], _, _ => rfl
  | t :: ts, d, h => by
    rw [List.foldl_cons,
      foldl_parseStep_ipAddress_fixed ts _ (by rw [parseStep_ipAddress_fixed d t h]; exact h),
      parseStep_ipAddress_fixed d t h]

lemma foldl_parseStep_pid_fixed :
    ∀ (ts : List String) (d : AlertData), d.pid ≠ "" →
      (ts.foldl parseStep d).pid = d.pid
  | [], _, _ => rfl
  | t :: ts, d, h => by
    rw [List.foldl_cons,
      foldl_parseStep_pid_fixed ts _ (by rw [parseStep_pid_fixed d t h]; exact h),
      parseStep_pid_fixed d t h]

lemma foldl_parseStep_reverseDNS_fixed :
    ∀ (ts : List String) (d : AlertData), d.reverseDNS ≠ "" →
      (ts.foldl parseStep d).reverseDNS = d.reverseDNS
  | [], _, _ => rfl
  | t :: ts, d, h => by
    rw [List.foldl_cons,
      foldl_parseStep_reverseDNS_fixed ts _ (by rw [parseStep_reverseDNS_fixed d t h]; exact h),
      parseStep_reverseDNS_fixed d t h]

lemma foldl_parseStep_processName_fixed :
    ∀ (ts : List String) (d : AlertData), d.processName ≠ "" →
      (ts.foldl parseStep d).processName = d.processName
  | [], _, _ => rfl
  | t :: ts, d, h => by
    rw [List.foldl_cons,
      foldl_parseStep_processName_fixed ts _ (by rw [parseStep_processName_fixed d t h]; exact h),
      parseStep_processName_fixed d t h]

lemma parseStep_port_overwrite (d : AlertData) (t p pr : String)
    (h1 : jsEndsWith (jsTrim t) ":" = false) (h2 : isIPv4 (jsTrim t) = false)
    (h3 : portProtoSplit (jsTrim t) = some (p, pr)) :
    (parseStep d t).port = p ∧ (parseStep d t).protocol = pr := by
  simp [parseStep, h1, h2, h3]

lemma parseStep_path_overwrite (d : AlertData) (t : String)
    (h1 : jsEndsWith (jsTrim t) ":" = false) (h2 : isIPv4 (jsTrim t) = false)
    (h3 : portProtoSplit (jsTrim t) = none) (h4 : isPid (jsTrim t) = false)
    (h5 : jsStartsWith (jsTrim t) "/" = true) (h6 : jsIncludes (jsTrim t) "/" = true) :
    (parseStep d t).path = jsTrim t := by
  simp only [parseStep, h1, h2, h3, h4, h5, h6]
  simp
  split <;> simp

lemma parseStep_args_overwrite (d : AlertData) (t : String)
    (h1 : jsEndsWith (jsTrim t) ":" = false) (h2 : isIPv4 (jsTrim t) = false)
    (h3 : portProtoSplit (jsTrim t) = none) (h4 : isPid (jsTrim t) = false)
    (h5 : jsStartsWith (jsTrim t) "/" = false) (h6 : jsStartsWith (jsTrim t) "http://" = true) :
    (parseStep d t).args = jsTrim t := by
  simp [parseStep, h1, h2, h3, h4, h5, h6]

end Extractor

/-- Claim C1 (counterexample): in `parseAlertTexts` the `port` branch has
no first-match guard, so on the fragments `["443 (TCP)", "80 (UDP)"]` the
later matching fragment overwrites the field: `port` ends as `"80"`, not
the first match `"443"` that the claim requires. -/
theorem claim1_counterexample :
    (Extractor.parseAlertTexts ["443 (TCP)", "80 (UDP)"]).port = "80" ∧
    (Extractor.parseAlertTexts ["443 (TCP)"]).port = "443" ∧
    ¬ (Extractor.parseAlertTexts ["443 (TCP)", "80 (UDP)"]).port = "443" := by
  decide

/-- Claim C1 (amended): in the field extractor's single pass, the fields
`ipAddress`, `pid`, `reverseDNS` and `processName` are first-match-wins:
once one of them is nonempty, every later fragment leaves it unchanged.
The fields `port`, `protocol`, `path` and `args` are instead overwritten
by every later fragment matching their pattern (last match wins). -/
theorem claim1_amended (d : Extractor.AlertData) (ts : List String) (t p pr : String) :
    (d.ipAddress ≠ "" → (ts.foldl Extractor.parseStep d).ipAddress = d.ipAddress) ∧
    (d.pid ≠ "" → (ts.foldl Extractor.parseStep d).pid = d.pid) ∧
    (d.reverseDNS ≠ "" → (ts.foldl Extractor.parseStep d).reverseDNS = d.reverseDNS) ∧
    (d.processName ≠ "" → (ts.foldl Extractor.parseStep d).processName = d.processName) ∧
    (jsEndsWith (jsTrim t) ":" = false → Extractor.isIPv4 (jsTrim t) = false →
      Extractor.portProtoSplit (jsTrim t) = some (p, pr) →
      (Extractor.parseStep d t).port = p ∧ (Extractor.parseStep d t).protocol = pr) ∧
    (jsEndsWith (jsTrim t) ":" = false → Extractor.isIPv4 (jsTrim t) = false →
      Extractor.portProtoSplit (jsTrim t) = none → Extractor.isPid (jsTrim t) = false →
      jsStartsWith (jsTrim t) "/" = true → jsIncludes (jsTrim t) "/" = true →
      (Extractor.parseStep d t).path = jsTrim t) ∧
    (jsEndsWith (jsTrim t) ":" = false → Extractor.isIPv4 (jsTrim t) = false →
      Extractor.portProtoSplit (jsTrim t) = none → Extractor.isPid (jsTrim t) = false →
      jsStartsWith (jsTrim t) "/" = false → jsStartsWith (jsTrim t) "http://" = true →
      (Extractor.parseStep d t).args = jsTrim t) :=
  ⟨Extractor.foldl_parseStep_ipAddress_fixed ts d,
   Extractor.foldl_parseStep_pid_fixed ts d,
   Extractor.foldl_parseStep_reverseDNS_fixed ts d,
   Extractor.foldl_parseStep_processName_fixed ts d,
   Extractor.parseStep_port_overwrite d t p pr,
   Extractor.parseStep_path_overwrite d t,
   Extractor.parseStep_args_overwrite d t⟩

/-- Record with the four guarded extractor fields already set, used to
instantiate the claim C1 witness. -/
def guardedSample : Extractor.AlertData :=
  { processName := "curl", pid := "1234", path := "", args := "",
    ipAddress := "1.1.1.1", port := "", protocol := "TCP",
    reverseDNS := "a.com", rawTexts := [] }

/-- Claim C1 witness: the amended theorem applied at concrete inputs. -/
theorem claim1_amended_witness :
    ((["2.2.2.2"].foldl Extractor.parseStep guardedSample).ipAddress = guardedSample.ipAddress) ∧
    ((["9999"].foldl Extractor.parseStep guardedSample).pid = guardedSample.pid) ∧
    ((["b.org"].foldl Extractor.parseStep guardedSample).reverseDNS = guardedSample.reverseDNS) ∧
    ((["wget"].foldl Extractor.parseStep guardedSample).processName = guardedSample.processName) ∧
    ((Extractor.parseStep guardedSample "80 (UDP)").port = "80") ∧
    ((Extractor.parseStep guardedSample "/usr/bin/env").path = "/usr/bin/env") ∧
    ((Extractor.parseStep guardedSample "http://x.example").args = "http://x.example") := by
  refine ⟨?_, ?_, ?_, ?_, ?_, ?_, ?_⟩
  · exact (claim1_amended guardedSample ["2.2.2.2"] "" "" "").1 (by decide)
  · exact (claim1_amended guardedSample ["9999"] "" "" "").2.1 (by decide)
  · exact (claim1_amended guardedSample ["b.org"] "" "" "").2.2.1 (by decide)
  · exact (claim1_amended guardedSample ["wget"] "" "" "").2.2.2.1 (by decide)
  · exact ((claim1_amended guardedSample [] "80 (UDP)" "80" "UDP").2.2.2.2.1
      (by decide) (by decide) (by decide)).1
  · exact (claim1_amended guardedSample [] "/usr/bin/env" "" "").2.2.2.2.2.1
      (by decide) (by decide) (by decide) (by decide) (by decide) (by decide)
  · exact (claim1_amended guardedSample [] "http://x.example" "" "").2.2.2.2.2.2
      (by decide) (by decide) (by decide) (by decide) (by decide) (by decide)

/-- Claim C3 (counterexample): on the empty fragment sequence the
extractor's record does not have every optional field empty: the source
initialises `protocol` to `"TCP"`, so that field is set, not unset. -/
theorem claim3_counterexample :
    (Extractor.parseAlertTexts []).protocol = "TCP" ∧
    ¬ (Extractor.parseAlertTexts []).protocol = "" := by
  decide

/-- Claim C3 (amended): applying the field extractor to the empty
fragment sequence returns normally (the embedding is a total function)
and yields the record with every optional field empty except `protocol`,
which defaults to `"TCP"`. -/
theorem claim3_amended :
    Extractor.parseAlertTexts [] =
      { processName := "", pid := "", path := "", args := "", ipAddress := "",
        port := "", protocol := "TCP", reverseDNS := "", rawTexts := [] } := rfl

/-- Claim C7: on the fragments
`["443 (TCP)", "8.8.8.8", "curl", "/usr/bin/curl", "12345"]` the field
extractor produces exactly the claimed record: port 443, protocol TCP,
ip 8.8.8.8, pid 12345, path /usr/bin/curl, process name curl. -/
theorem claim7_extraction_example :
    (Extractor.parseAlertTexts ["443 (TCP)", "8.8.8.8", "curl", "/usr/bin/curl", "12345"]).port = "443" ∧
    (Extractor.parseAlertTexts ["443 (TCP)", "8.8.8.8", "curl", "/usr/bin/curl", "12345"]).protocol = "TCP" ∧
    (Extractor.parseAlertTexts ["443 (TCP)", "8.8.8.8", "curl", "/usr/bin/curl", "12345"]).ipAddress = "8.8.8.8" ∧
    (Extractor.parseAlertTexts ["443 (TCP)", "8.8.8.8", "curl", "/usr/bin/curl", "12345"]).pid = "12345" ∧
    (Extractor.parseAlertTexts ["443 (TCP)", "8.8.8.8", "curl", "/usr/bin/curl", "12345"]).path = "/usr/bin/curl" ∧
    (Extractor.parseAlertTexts ["443 (TCP)", "8.8.8.8", "curl", "/usr/bin/curl", "12345"]).processName = "curl" := by
  decide

/-- Claim C2: the `POST /action` handler passes each of the four valid
action names to `executeAction` (the Action Player) and answers with that
call's success flag, while any other action string is answered with
status 400, no click script is run, and the state is untouched. -/
theorem claim2_action_endpoint (s : MonitorState) (action : String) (uiOk : Bool) :
    (Main.validActions.contains action = true →
      (Main.handleActionPost s action uiOk).scriptRun =
        (Main.executeAction s action uiOk).scriptRun ∧
      (Main.handleActionPost s action uiOk).scriptRun ≠ none ∧
      (Main.handleActionPost s action uiOk).success =
        some (Main.executeAction s action uiOk).success ∧
      (Main.handleActionPost s action uiOk).state =
        (Main.executeAction s action uiOk).state ∧
      (Main.handleActionPost s action uiOk).status =
        (if (Main.executeAction s action uiOk).success then 200 else 500)) ∧
    (Main.validActions.contains action = false →
      (Main.handleActionPost s action uiOk).status = 400 ∧
      (Main.handleActionPost s action uiOk).scriptRun = none ∧
      (Main.handleActionPost s action uiOk).state = s) := by
  constructor
  · intro h
    have h4 : action = "allow" ∨ action = "block" ∨
        action = "allow-once" ∨ action = "block-once" := by
      simpa [Main.validActions] using h
    refine ⟨?_, ?_, ?_, ?_, ?_⟩ <;>
      rcases h4 with rfl | rfl | rfl | rfl <;> cases uiOk <;>
        simp [Main.handleActionPost, Main.executeAction, Main.scriptMap,
          Main.validActions]
  · intro h
    simp only [Main.handleActionPost, h]
    simp

/-- Claim C2 witness: the endpoint theorem applied at a valid action and
at the invalid action string `"nonsense"`. -/
theorem claim2_action_endpoint_witness :
    (Main.handleActionPost initialState "allow-once" true).success =
      some (Main.executeAction initialState "allow-once" true).success ∧
    (Main.handleActionPost initialState "nonsense" true).status = 400 ∧
    (Main.handleActionPost initialState "nonsense" true).scriptRun = none :=
  ⟨((claim2_action_endpoint initialState "allow-once" true).1 (by decide)).2.2.1,
   ((claim2_action_endpoint initialState "nonsense" true).2 (by decide)).1,
   ((claim2_action_endpoint initialState "nonsense" true).2 (by decide)).2.1⟩

/-- Claim C8: in both `executeAction` variants, a successful action
clears `lastAlertHash` while leaving the other state fields unchanged,
and a failed action leaves the whole state unchanged. -/
theorem claim8_action_state_effect (s : MonitorState) (action : String) (uiOk : Bool) :
    ((Main.executeAction s action uiOk).success = true →
      (Main.executeAction s action uiOk).state = { s with lastAlertHash := none }) ∧
    ((Main.executeAction s action uiOk).success = false →
      (Main.executeAction s action uiOk).state = s) ∧
    ((IndexJs.executeAction s action uiOk).success = true →
      (IndexJs.executeAction s action uiOk).state = { s with lastAlertHash := none }) ∧
    ((IndexJs.executeAction s action uiOk).success = false →
      (IndexJs.executeAction s action uiOk).state = s) := by
  refine ⟨?_, ?_, ?_, ?_⟩
  · intro h
    unfold Main.executeAction at h ⊢
    split at h <;> cases uiOk <;> simp_all
  · intro h
    unfold Main.executeAction at h ⊢
    split at h <;> cases uiOk <;> simp_all
  · intro h
    unfold IndexJs.executeAction at h ⊢
    cases uiOk <;> simp_all
  · intro h
    unfold IndexJs.executeAction at h ⊢
    cases uiOk <;> simp_all

/-- Claim C8 witness: the frame-effect theorem applied at a concrete
state for a successful click and for a failed click. -/
theorem claim8_action_state_effect_witness :
    (Main.executeAction ⟨some "h", some "m", some "c"⟩ "block" true).state =
      { (⟨some "h", some "m", some "c"⟩ : MonitorState) with lastAlertHash := none } ∧
    (Main.executeAction ⟨some "h", some "m", some "c"⟩ "block" false).state =
      ⟨some "h", some "m", some "c"⟩ :=
  ⟨(claim8_action_state_effect ⟨some "h", some "m", some "c"⟩ "block" true).1 (by decide),
   (claim8_action_state_effect ⟨some "h", some "m", some "c"⟩ "block" false).2.1 (by decide)⟩

/-- Claim C9: in the `src/index.js` variant of `executeAction`, a click
script is run for every action string (there is no unsupported-action
rejection), and every action other than exactly `"allow"` selects the
Block click script. -/
theorem claim9_indexjs_block_default (s : MonitorState) (action : String) (uiOk : Bool) :
    (IndexJs.executeAction s action uiOk).scriptRun ≠ none ∧
    (action ≠ "allow" →
      (IndexJs.executeAction s action uiOk).scriptRun = some "click-block.scpt") := by
  constructor
  · unfold IndexJs.executeAction
    cases uiOk <;> split <;> simp
  · intro h
    unfold IndexJs.executeAction
    cases uiOk <;> simp [h]

/-- Claim C9 witness: the theorem applied at the action `"allow-once"`. -/
theorem claim9_indexjs_block_default_witness :
    (IndexJs.executeAction initialState "allow-once" true).scriptRun =
      some "click-block.scpt" :=
  (claim9_indexjs_block_default initialState "allow-once" true).2 (by decide)

namespace Main

lemma sendToGateway_state_lastAlertHash (s : MonitorState) (m : String)
    (o : GatewayOutcome) :
    (sendToGateway s m o).1.lastAlertHash = s.lastAlertHash := by
  rcases o with ⟨st, b⟩ | _ | _
  · by_cases hst : st = 200
    · subst hst
      rcases b with ⟨ok, mid⟩ | _
      · cases ok <;> cases mid <;> simp [sendToGateway]
      · simp [sendToGateway]
    · simp [sendToGateway, hst]
  · rfl
  · rfl

lemma pollTick_noAlert (cfg : Config) (s : MonitorState) (env : TickEnv)
    (h1 : env.hasAlert = false) (h2 : s.lastAlertHash = none) :
    pollTick cfg s env =
      { state := s, forwarded := false, delivered := false, fallbackContent := none } := by
  simp [pollTick, h1, h2, jsTruthyHash]

lemma pollTick_same_hash (cfg : Config) (s : MonitorState) (env : TickEnv)
    (texts : List String) (h1 : env.hasAlert = true) (h2 : env.scraped = some texts)
    (h3 : s.lastAlertHash = some (alertHash texts)) :
    pollTick cfg s env =
      { state := s, forwarded := false, delivered := false, fallbackContent := none } := by
  simp [pollTick, h1, h2, h3]

lemma pollTick_new_hash (cfg : Config) (s : MonitorState) (env : TickEnv)
    (texts : List String) (h1 : env.hasAlert = true) (h2 : env.scraped = some texts)
    (h3 : some (alertHash texts) ≠ s.lastAlertHash) :
    (pollTick cfg s env).forwarded = true ∧
    (pollTick cfg s env).state.lastAlertHash = some (alertHash texts) := by
  simp only [pollTick, h1, h2]
  rw [if_pos h3]
  rcases heq : sendToGateway { s with lastAlertHash := some (alertHash texts) }
      (formatAlertMessage cfg texts) env.gateway with ⟨s2, r⟩
  have hkeep := sendToGateway_state_lastAlertHash
    { s with lastAlertHash := some (alertHash texts) }
    (formatAlertMessage cfg texts) env.gateway
  rw [heq] at hkeep
  cases r <;> simp_all

lemma pollRun_same_hash (cfg : Config) (texts : List String) :
    ∀ (es : List TickEnv) (s : MonitorState),
      (∀ e ∈ es, e.hasAlert = true ∧ e.scraped = some texts) →
      s.lastAlertHash = some (alertHash texts) →
      (pollRun cfg s es).2 = 0
  | [], _, _, _ => rfl
  | e :: es, s, hall, hs => by
    have he := hall e (List.mem_cons_self e es)
    rw [pollRun, pollTick_same_hash cfg s e texts he.1 he.2 hs]
    simpa using pollRun_same_hash cfg texts es s
      (fun x hx => hall x (List.mem_cons_of_mem e hx)) hs

end Main

/-- Claim C4: a poll tick that observes no alert window leaves an empty
`lastAlertHash` empty, and when every tick of a nonempty run observes the
same fragments (hence the same fingerprint) while the starting state does
not already hold that fingerprint, `sendToGateway` is invoked on the
first tick and the whole run invokes it exactly once. -/
theorem claim4_poller_state_machine (cfg : Main.Config) (s : MonitorState)
    (e : Main.TickEnv) (texts : List String) (e1 : Main.TickEnv)
    (es : List Main.TickEnv) :
    (s.lastAlertHash = none → e.hasAlert = false →
      (Main.pollTick cfg s e).state.lastAlertHash = none) ∧
    ((∀ x ∈ e1 :: es, x.hasAlert = true ∧ x.scraped = some texts) →
      s.lastAlertHash ≠ some (Main.alertHash texts) →
      (Main.pollTick cfg s e1).forwarded = true ∧
      (Main.pollRun cfg s (e1 :: es)).2 = 1) := by
  constructor
  · intro h1 h2
    rw [Main.pollTick_noAlert cfg s e h2 h1]
    exact h1
  · intro hall hne
    have he1 := hall e1 (List.mem_cons_self e1 es)
    have hfirst := Main.pollTick_new_hash cfg s e1 texts he1.1 he1.2 (Ne.symm hne)
    refine ⟨hfirst.1, ?_⟩
    rw [Main.pollRun, hfirst.1]
    rw [Main.pollRun_same_hash cfg texts es (Main.pollTick cfg s e1).state
      (fun x hx => hall x (List.mem_cons_of_mem e1 hx)) hfirst.2]
    simp

/-- Tick observation used by the claim C4 witness: the alert window
present with the fragments `["curl"]` and a gateway timeout. -/
def tickEnvSample : Main.TickEnv :=
  { hasAlert := true, scraped := some ["curl"],
    gateway := Main.GatewayOutcome.timeout, fallbackWriteOk := true }

/-- Claim C4 witness: the state-machine theorem applied to a no-alert
tick from the initial state and to a run of two identical alert ticks. -/
theorem claim4_poller_state_machine_witness :
    (Main.pollTick Main.defaultConfig initialState
      { hasAlert := false, scraped := none,
        gateway := Main.GatewayOutcome.timeout, fallbackWriteOk := true }).state.lastAlertHash = none ∧
    (Main.pollTick Main.defaultConfig initialState tickEnvSample).forwarded = true ∧
    (Main.pollRun Main.defaultConfig initialState [tickEnvSample, tickEnvSample]).2 = 1 := by
  refine ⟨?_, ?_, ?_⟩
  · exact (claim4_poller_state_machine Main.defaultConfig initialState
      { hasAlert := false, scraped := none,
        gateway := Main.GatewayOutcome.timeout, fallbackWriteOk := true }
      ["curl"] tickEnvSample []).1 (by decide) (by decide)
  · exact ((claim4_poller_state_machine Main.defaultConfig initialState
      tickEnvSample ["curl"] tickEnvSample [tickEnvSample]).2
      (by decide) (by decide)).1
  · exact ((claim4_poller_state_machine Main.defaultConfig initialState
      tickEnvSample ["curl"] tickEnvSample [tickEnvSample]).2
      (by decide) (by decide)).2

/-- Definition following the spec's words for claim C5: the forward
operation should succeed "exactly when the HTTP response has a success
status and a body indicating success" — status 200 and a parsed body
whose `ok` flag is set.  It is stated from the spec, separately from
`sendToGateway` (which is translated from the source), so that the two
can be compared. -/
def specDeliverySuccess : Main.GatewayOutcome → Bool
  | .response 200 (.parsed true _) => true
  | _ => false

/-- Claim C5 (counterexample): a 200 response whose body fails to parse
is not a body indicating success, yet `sendToGateway` resolves it as a
success ("assume success if we got 200" in the source), so success is not
exactly the spec's condition. -/
theorem claim5_counterexample :
    (Main.sendToGateway initialState "m"
      (Main.GatewayOutcome.response 200 Main.BodyView.malformed)).2 = Except.ok true ∧
    specDeliverySuccess (Main.GatewayOutcome.response 200 Main.BodyView.malformed) = false :=
  ⟨rfl, rfl⟩

/-- Claim C5 (amended): the forward operation succeeds exactly when the
response has status 200 and its body either parsed with the `ok` flag set
or failed to parse (a 200 with an unparsable body is assumed successful);
on a success whose body carries a message identifier, that identifier and
the message are persisted into the state; every failure (200 with `ok`
unset, non-200 status, transport error, timeout) yields an error and
leaves the state unchanged. -/
theorem claim5_amended (s : MonitorState) (m : String) (out : Main.GatewayOutcome) :
    ((Main.sendToGateway s m out).2.isOk = true ↔
      ((∃ mid, out = Main.GatewayOutcome.response 200 (Main.BodyView.parsed true mid)) ∨
        out = Main.GatewayOutcome.response 200 Main.BodyView.malformed)) ∧
    (∀ idv, out = Main.GatewayOutcome.response 200 (Main.BodyView.parsed true (some idv)) →
      (Main.sendToGateway s m out).1.lastMessageId = some idv ∧
      (Main.sendToGateway s m out).1.lastMessageContent = some m) ∧
    ((Main.sendToGateway s m out).2.isOk = false → (Main.sendToGateway s m out).1 = s) := by
  rcases out with ⟨st, b⟩ | _ | _
  · by_cases hst : st = 200
    · subst hst
      rcases b with ⟨ok, mid⟩ | _
      · cases ok <;> cases mid <;>
          simp [Main.sendToGateway, Except.isOk, Except.toBool]
      · simp [Main.sendToGateway, Except.isOk, Except.toBool]
    · simp [Main.sendToGateway, hst, Except.isOk, Except.toBool]
  · simp [Main.sendToGateway, Except.isOk, Except.toBool]
  · simp [Main.sendToGateway, Except.isOk, Except.toBool]

/-- Claim C5 witness: the amended theorem applied to a success response
carrying a message identifier and to a timeout. -/
theorem claim5_amended_witness :
    (Main.sendToGateway initialState "msg"
      (Main.GatewayOutcome.response 200 (Main.BodyView.parsed true (some "42")))).1.lastMessageId = some "42" ∧
    (Main.sendToGateway initialState "msg"
      (Main.GatewayOutcome.response 200 (Main.BodyView.parsed true (some "42")))).1.lastMessageContent = some "msg" ∧
    (Main.sendToGateway initialState "msg" Main.GatewayOutcome.timeout).1 = initialState := by
  refine ⟨?_, ?_, ?_⟩
  · exact ((claim5_amended initialState "msg"
      (Main.GatewayOutcome.response 200 (Main.BodyView.parsed true (some "42")))).2.1
      "42" rfl).1
  · exact ((claim5_amended initialState "msg"
      (Main.GatewayOutcome.response 200 (Main.BodyView.parsed true (some "42")))).2.1
      "42" rfl).2
  · exact (claim5_amended initialState "msg" Main.GatewayOutcome.timeout).2.2 rfl

/-- Claim C6: when a tick detects a new alert and the forward operation
fails (any delivery error, including a timeout), the tick still returns
normally: it marks the delivery failed, and the fallback file receives
exactly the formatted message that would have been delivered (or nothing
when even the fallback write fails, which is likewise swallowed). -/
theorem claim6_fallback_on_delivery_error (cfg : Main.Config) (s : MonitorState)
    (env : Main.TickEnv) (texts : List String)
    (h1 : env.hasAlert = true) (h2 : env.scraped = some texts)
    (h3 : s.lastAlertHash ≠ some (Main.alertHash texts))
    (h4 : ∀ s1, (Main.sendToGateway s1 (Main.formatAlertMessage cfg texts)
      env.gateway).2.isOk = false) :
    (Main.pollTick cfg s env).fallbackContent =
      (if env.fallbackWriteOk then some (Main.formatAlertMessage cfg texts) else none) ∧
    (Main.pollTick cfg s env).forwarded = true ∧
    (Main.pollTick cfg s env).delivered = false := by
  simp only [Main.pollTick, h1, h2]
  rw [if_pos (Ne.symm h3)]
  rcases heq : Main.sendToGateway { s with lastAlertHash := some (Main.alertHash texts) }
      (Main.formatAlertMessage cfg texts) env.gateway with ⟨s2, r⟩
  have hno := h4 { s with lastAlertHash := some (Main.alertHash texts) }
  rw [heq] at hno
  cases r <;> simp_all [Except.isOk, Except.toBool]

/-- Claim C6 witness: the fallback theorem applied to a timeout on a
fresh alert, with the fallback write succeeding. -/
theorem claim6_fallback_on_delivery_error_witness :
    (Main.pollTick Main.defaultConfig initialState tickEnvSample).fallbackContent =
      (if tickEnvSample.fallbackWriteOk then
        some (Main.formatAlertMessage Main.defaultConfig ["curl"]) else none) ∧
    (Main.pollTick Main.defaultConfig initialState tickEnvSample).forwarded = true ∧
    (Main.pollTick Main.defaultConfig initialState tickEnvSample).delivered = false :=
  claim6_fallback_on_delivery_error Main.defaultConfig initialState tickEnvSample
    ["curl"] (by decide) (by decide) (by decide) (fun s1 => rfl)

/-- Claim C10: the alert fingerprint is the `'|'`-join of the scraped
fragments truncated to 200 characters, so any two fragment sequences
(even distinct ones) whose joins agree on that prefix get equal
fingerprints, and a tick that observes an alert whose fingerprint equals
the stored `lastAlertHash` is deduplicated: nothing is forwarded and the
state is unchanged. -/
theorem claim10_fingerprint_dedup (xs ys : List String) (cfg : Main.Config)
    (s : MonitorState) (env : Main.TickEnv) :
    (Main.alertHash xs = jsTake (jsJoin "|" xs) 200) ∧
    (xs ≠ ys → jsTake (jsJoin "|" xs) 200 = jsTake (jsJoin "|" ys) 200 →
      Main.alertHash xs = Main.alertHash ys) ∧
    (s.lastAlertHash = some (Main.alertHash xs) → env.hasAlert = true →
      env.scraped = some ys → Main.alertHash ys = Main.alertHash xs →
      (Main.pollTick cfg s env).forwarded = false ∧
      (Main.pollTick cfg s env).state = s) := by
  refine ⟨rfl, fun _ h => h, fun h1 h2 h3 h4 => ?_⟩
  have hsame : s.lastAlertHash = some (Main.alertHash ys) := by rw [h4]; exact h1
  rw [Main.pollTick_same_hash cfg s env ys h2 h3 hsame]
  exact ⟨rfl, rfl⟩

/-- String of 201 `a` characters, used by the claim C10 witness to
exhibit two distinct fragment sequences whose joins agree on the first
200 characters. -/
def longRun : String := String.mk (List.replicate 201 'a')

/-- Monitor state holding the fingerprint of `[longRun]`, used by the
claim C10 witness. -/
def dedupState : MonitorState := ⟨some (Main.alertHash [longRun]), none, none⟩

/-- Tick observation of the second, different alert `[longRun, "x"]`
sharing the 200-character prefix, used by the claim C10 witness. -/
def dedupEnv : Main.TickEnv :=
  { hasAlert := true, scraped := some [longRun, "x"],
    gateway := Main.GatewayOutcome.timeout, fallbackWriteOk := true }

/-- Claim C10 witness: the fingerprint theorem applied to the distinct
sequences `[longRun]` and `[longRun, "x"]` and a deduplicated tick. -/
theorem claim10_fingerprint_dedup_witness :
    Main.alertHash [longRun] = Main.alertHash [longRun, "x"] ∧
    (Main.pollTick Main.defaultConfig dedupState dedupEnv).forwarded = false ∧
    (Main.pollTick Main.defaultConfig dedupState dedupEnv).state = dedupState := by
  refine ⟨?_, ?_, ?_⟩
  · exact (claim10_fingerprint_dedup [longRun] [longRun, "x"] Main.defaultConfig
      dedupState dedupEnv).2.1 (by decide) (by decide)
  · exact ((claim10_fingerprint_dedup [longRun] [longRun, "x"] Main.defaultConfig
      dedupState dedupEnv).2.2 rfl rfl rfl (by decide)).1
  · exact ((claim10_fingerprint_dedup [longRun] [longRun, "x"] Main.defaultConfig
      dedupState dedupEnv).2.2 rfl rfl rfl (by decide)).2
